import Mathlib

/-!
Verification of the authentication/session core of the Ecuruza marketplace API.

The TypeScript sources are shallowly embedded: JavaScript strings whose
character structure matters (OTP codes, bearer headers, raw reset tokens)
become `List Char`; opaque identifiers (emails, ids, secrets) stay `String`;
`Date` values become millisecond (or second, for JWT) counts as `Nat`;
Prisma tables become lists of records, with the unique indexes of the
migration modelled where they decide behaviour; cryptographic primitives
(bcrypt, HMAC-signed JWTs, sha256) are idealised as injective constructors.
-/

namespace ECuruza

/-- JS strings whose character structure matters are modelled as `List Char`. -/
abbrev Str := List Char

/-- `UserRole` enum from the Prisma schema. -/
inductive UserRole
  | ADMIN
  | SELLER
  | CUSTOMER
deriving DecidableEq

/-- `UserStatus` enum from the Prisma schema. -/
inductive UserStatus
  | ACTIVE
  | SUSPENDED
  | DELETED
deriving DecidableEq

/-- An `http-errors` error: `createError(status, message)`. -/
structure HttpError where
  status : Nat
  message : String
deriving DecidableEq

/-! auth.utils.ts -/

def JWT_SECRET : String := "your-super-secret-jwt-key-change-in-production"

def JWT_REFRESH_SECRET : String := "your-super-secret-refresh-key-change-in-production"

def ACCESS_TOKEN_EXPIRY : Nat := 24 * 60 * 60

def REFRESH_TOKEN_EXPIRY : Nat := 7 * 24 * 60 * 60

/-- `AuthPayload` from type.d.ts. -/
structure AuthPayload where
  userId : String
  email : String
  role : UserRole
deriving DecidableEq

/-- `TokenPayload` from type.d.ts (`iat`/`exp` are always set by `jwt.sign`). -/
structure TokenPayload where
  userId : String
  email : String
  role : UserRole
  iat : Nat
  exp : Nat
deriving DecidableEq

/-- Idealised JWT: a signed token records its claims, the signing secret and
the issue/expiry instants (seconds). Signature checking is modelled as
equality of the recorded secret with the verifying secret. -/
structure Jwt where
  payload : AuthPayload
  secret : String
  iat : Nat
  exp : Nat
deriving DecidableEq

/-- `jwt.sign(payload, secret, expiresIn)` at clock instant `now`. -/
def jwtSign (payload : AuthPayload) (secret : String) (expiresIn now : Nat) : Jwt :=
  { payload := payload, secret := secret, iat := now, exp := now + expiresIn }

/-- `jwt.verify(token, secret)` at clock instant `now`: succeeds when the
signature matches and the token is not yet expired (`now < exp`). -/
def jwtVerify (token : Jwt) (secret : String) (now : Nat) : Option TokenPayload :=
  if token.secret = secret ∧ now < token.exp then
    some { userId := token.payload.userId, email := token.payload.email,
           role := token.payload.role, iat := token.iat, exp := token.exp }
  else
    none

def generateAccessToken (payload : AuthPayload) (now : Nat) : Jwt :=
  jwtSign payload JWT_SECRET ACCESS_TOKEN_EXPIRY now

def generateRefreshToken (payload : AuthPayload) (now : Nat) : Jwt :=
  jwtSign payload JWT_REFRESH_SECRET REFRESH_TOKEN_EXPIRY now

def verifyAccessToken (token : Jwt) (now : Nat) : Except HttpError TokenPayload :=
  match jwtVerify token JWT_SECRET now with
  | some payload => .ok payload
  | none => .error ⟨401, "Invalid or expired access token"⟩

def verifyRefreshToken (token : Jwt) (now : Nat) : Except HttpError TokenPayload :=
  match jwtVerify token JWT_REFRESH_SECRET now with
  | some payload => .ok payload
  | none => .error ⟨401, "Invalid or expired refresh token"⟩

def generateTokenPair (payload : AuthPayload) (now : Nat) : Jwt × Jwt :=
  (generateAccessToken payload now, generateRefreshToken payload now)

/-- `extractTokenFromHeader`: `null` unless the header is present and starts
with the exact text `Bearer` followed by a space, else `substring(7)`. -/
def extractTokenFromHeader (authHeader : Option Str) : Option Str :=
  match authHeader with
  | none => none
  | some h =>
    if h = [] ∨ "Bearer ".toList.isPrefixOf h = false then none
    else some (h.drop 7)

/-- Idealised bcrypt digest: records the hashed plaintext and the cost. -/
structure BcryptHash where
  plaintext : String
  cost : Nat
deriving DecidableEq

/-- `hashPassword` (bcrypt, 12 salt rounds). -/
def hashPassword (password : String) : BcryptHash :=
  { plaintext := password, cost := 12 }

/-- `comparePassword` (bcrypt verify). -/
def comparePassword (password : String) (digest : BcryptHash) : Bool :=
  password == digest.plaintext

/-! password.reset.ts helpers -/

/-- Modelled from the spec: `passwordResetConfig` is imported from
`auth.config.ts`, which is not among the delivered sources; the spec gives a
~1 hour reset-token lifetime, so the expiry window is 60 minutes. No claim
depends on the concrete value. -/
def passwordResetExpiryMinutes : Nat := 60

/-- Idealised sha256 digest (`crypto.createHash` applied to the token):
injective by construction. -/
structure Sha256 where
  input : Str
deriving DecidableEq

/-- `hashResetToken` (sha256 of the raw token). -/
def hashResetToken (token : Str) : Sha256 := ⟨token⟩

/-- `getResetTokenExpiry` at clock `now` (milliseconds). -/
def getResetTokenExpiry (now : Nat) : Nat :=
  now + passwordResetExpiryMinutes * 60 * 1000

/-! Data model: the `User` table (initial migration plus the columns added by
the later migrations: `resetPasswordToken`/`resetPasswordExpires`,
`emailVerificationCode`/`emailVerificationExpires`). -/

/-- A row of the `User` table. -/
structure User where
  id : String
  firstName : String
  lastName : String
  email : String
  phone : String
  passwordHash : Option BcryptHash
  avatarUrl : Option String
  role : UserRole
  status : UserStatus
  emailVerified : Bool
  phoneVerified : Bool
  lastLoginAt : Option Nat
  resetPasswordToken : Option Sha256
  resetPasswordExpires : Option Nat
  emailVerificationCode : Option Str
  emailVerificationExpires : Option Nat
deriving DecidableEq

/-- The `User` table. -/
abbrev Db := List User

/-- `prisma.user.findUnique({ where: { email } })`. -/
def findUserByEmail (s : Db) (email : String) : Option User :=
  s.find? (fun u => u.email == email)

/-- `prisma.user.update({ where: { id }, data })`. -/
def updateUserById (s : Db) (id : String) (f : User → User) : Db :=
  s.map (fun u => if u.id == id then f u else u)

/-- `prisma.user.create({ data })`, subject to the unique indexes
`User_email_key` and `User_phone_key` declared in the initial migration:
a row whose email or phone is already taken is rejected (Prisma raises a
unique-constraint error, surfaced as a 500 by the error handler) and the
table is unchanged. -/
def dbCreateUser (s : Db) (u : User) : Except HttpError Db :=
  if s.any (fun v => v.email == u.email || v.phone == u.phone) then
    .error ⟨500, "Unique constraint failed"⟩
  else
    .ok (s ++ [u])

/-! auth.controller.ts -/

/-- The payload of a successful register/login/callback response. -/
structure AuthResult where
  status : Nat
  user : User
  accessToken : Jwt
  refreshToken : Jwt
deriving DecidableEq

/-- `login(email, password)` at clock `now` over table `s`; returns the
response (or error) together with the resulting table. -/
def login (email password : String) (now : Nat) (s : Db) :
    Except HttpError AuthResult × Db :=
  match findUserByEmail s email with
  | none => (.error ⟨401, "Invalid email or password"⟩, s)
  | some user =>
    match user.passwordHash with
    | none => (.error ⟨401, "Please login with Google instead"⟩, s)
    | some digest =>
      if comparePassword password digest = false then
        (.error ⟨401, "Invalid email or password"⟩, s)
      else if user.status ≠ UserStatus.ACTIVE then
        (.error ⟨403, "Account is not active"⟩, s)
      else
        let s1 := updateUserById s user.id (fun u => { u with lastLoginAt := some now })
        let pair := generateTokenPair ⟨user.id, user.email, user.role⟩ now
        (.ok ⟨200, user, pair.1, pair.2⟩, s1)

/-- `RegisterRequest` from type.d.ts. -/
structure RegisterRequest where
  firstName : String
  lastName : String
  email : String
  phone : String
  password : String
  role : Option UserRole

/-- The row `register` inserts: explicit fields from the request, the rest
(`status`, `emailVerified`, `phoneVerified`, nullable columns) from the
schema defaults of the initial migration. -/
def freshUser (req : RegisterRequest) (newId : String) : User :=
  { id := newId
    firstName := req.firstName
    lastName := req.lastName
    email := req.email
    phone := req.phone
    passwordHash := some (hashPassword req.password)
    avatarUrl := none
    role := req.role.getD .CUSTOMER
    status := .ACTIVE
    emailVerified := false
    phoneVerified := false
    lastLoginAt := none
    resetPasswordToken := none
    resetPasswordExpires := none
    emailVerificationCode := none
    emailVerificationExpires := none }

/-- `register`: duplicate check in one `findFirst` over both fields, then
creation, then best-effort avatar generation (`avatarResult` is the outcome
of `generateAndUploadAvatar`: `some url` on success, `none` when the caught
failure is only logged), then token issuance and the 201 response. -/
def register (req : RegisterRequest) (newId : String) (avatarResult : Option String)
    (now : Nat) (s : Db) : Except HttpError AuthResult × Db :=
  match s.find? (fun u => u.email == req.email || u.phone == req.phone) with
  | some _ => (.error ⟨409, "User with this email or phone already exists"⟩, s)
  | none =>
    match dbCreateUser s (freshUser req newId) with
    | .error e => (.error e, s)
    | .ok s1 =>
      let s2 := match avatarResult with
        | some url => updateUserById s1 newId (fun u => { u with avatarUrl := some url })
        | none => s1
      let user := match avatarResult with
        | some url => { freshUser req newId with avatarUrl := some url }
        | none => freshUser req newId
      let pair := generateTokenPair ⟨newId, req.email, req.role.getD .CUSTOMER⟩ now
      (.ok ⟨201, user, pair.1, pair.2⟩, s2)

/-- The uniform anti-enumeration response of `forgotPassword`. -/
def genericResetMessage : String := "If an account exists, a reset link will be sent"

/-- `forgotPassword(email)` at clock `now`. `rawToken` is the outcome of
`generateResetToken()` (random bytes); `mailOk` is the boolean result of
`sendPasswordResetEmail`, which catches every delivery failure internally
and never throws — the controller ignores it. -/
def forgotPassword (email : String) (rawToken : Str) (now : Nat) (mailOk : Bool)
    (s : Db) : Except HttpError (Nat × String) × Db :=
  if email = "" then
    (.error ⟨400, "Email is required"⟩, s)
  else
    match findUserByEmail s email with
    | none => (.ok (200, genericResetMessage), s)
    | some user =>
      let hashedToken := hashResetToken rawToken
      let expiresAt := getResetTokenExpiry now
      let s1 := updateUserById s user.id (fun u =>
        { u with resetPasswordToken := some hashedToken,
                 resetPasswordExpires := some expiresAt })
      let _mailResult := mailOk
      (.ok (200, genericResetMessage), s1)

/-- The single-query lookup condition of `resetPassword`: stored hash equals
the hash of the presented token AND the stored expiry is strictly in the
future (`resetPasswordExpires: { gt: new Date() }`; a null expiry fails). -/
def resetMatch (hashedToken : Sha256) (now : Nat) (u : User) : Bool :=
  u.resetPasswordToken == some hashedToken &&
    match u.resetPasswordExpires with
    | some e => decide (now < e)
    | none => false

/-- `resetPassword(token, newPassword)` at clock `now`. -/
def resetPassword (token : Str) (newPassword : String) (now : Nat) (s : Db) :
    Except HttpError (Nat × String) × Db :=
  if token = [] ∨ newPassword = "" then
    (.error ⟨400, "Token and new password are required"⟩, s)
  else
    let hashedToken := hashResetToken token
    match s.find? (resetMatch hashedToken now) with
    | none => (.error ⟨400, "Invalid or expired reset token"⟩, s)
    | some user =>
      let s1 := updateUserById s user.id (fun u =>
        { u with passwordHash := some (hashPassword newPassword),
                 resetPasswordToken := none,
                 resetPasswordExpires := none })
      (.ok (200, "Password has been reset successfully"), s1)

/-- The profile returned by Google's userinfo endpoint (external input). -/
structure GoogleUser where
  sub : String
  email : String
  name : String
  picture : Option String
  given_name : Option String
  family_name : Option String
deriving DecidableEq

/-- JavaScript `value || fallback` on an optional string: the fallback is
used when the value is absent or empty (falsy). -/
def jsOrElse (v : Option String) (fallback : String) : String :=
  match v with
  | some s => if s = "" then fallback else s
  | none => fallback

/-- The row `googleCallback` auto-provisions when no account matches the
provider-supplied email: empty phone, no password hash, role CUSTOMER,
status ACTIVE, emailVerified true. -/
def googleProvisionedUser (g : GoogleUser) (newId : String) : User :=
  { id := newId
    firstName := jsOrElse g.given_name "User"
    lastName := jsOrElse g.family_name ""
    email := g.email
    phone := ""
    passwordHash := none
    avatarUrl := g.picture
    role := .CUSTOMER
    status := .ACTIVE
    emailVerified := true
    phoneVerified := false
    lastLoginAt := none
    resetPasswordToken := none
    resetPasswordExpires := none
    emailVerificationCode := none
    emailVerificationExpires := none }

/-- `googleCallback(code, state)`: validates presence of code and state and
the anti-forgery cookie, then (the code exchange and profile fetch having
produced `g`) logs in the account matched by email — rejecting non-active
accounts — or auto-provisions a new one; finally issues a token pair and
redirects (302). -/
def googleCallback (code state cookieState : Option String) (g : GoogleUser)
    (newId : String) (now : Nat) (s : Db) : Except HttpError AuthResult × Db :=
  match code, state with
  | some c, some st =>
    if c = "" ∨ st = "" then
      (.error ⟨400, "Authorization code and state are required"⟩, s)
    else if cookieState ≠ some st then
      (.error ⟨400, "Invalid state parameter"⟩, s)
    else
      match findUserByEmail s g.email with
      | none =>
        match dbCreateUser s (googleProvisionedUser g newId) with
        | .error e => (.error e, s)
        | .ok s1 =>
          let user := googleProvisionedUser g newId
          let pair := generateTokenPair ⟨user.id, user.email, user.role⟩ now
          (.ok ⟨302, user, pair.1, pair.2⟩, s1)
      | some user =>
        if user.status ≠ UserStatus.ACTIVE then
          (.error ⟨403, "Account is not active"⟩, s)
        else
          let pair := generateTokenPair ⟨user.id, user.email, user.role⟩ now
          (.ok ⟨302, user, pair.1, pair.2⟩, s)
  | _, _ => (.error ⟨400, "Authorization code and state are required"⟩, s)

/-- `authenticate` middleware: extract the bearer token from the
Authorization header (401 "Access token is required" when absent or not a
`Bearer ` header), then verify it. `decodeJwt` is the wire decoding of the
token string; a string that is not a well-formed token fails verification
inside `jwt.verify` with the same 401 "Invalid or expired access token". -/
def authenticate (authHeader : Option Str) (decodeJwt : Str → Option Jwt)
    (now : Nat) : Except HttpError TokenPayload :=
  match extractTokenFromHeader authHeader with
  | none => .error ⟨401, "Access token is required"⟩
  | some tokenStr =>
    match decodeJwt tokenStr with
    | none => .error ⟨401, "Invalid or expired access token"⟩
    | some token => verifyAccessToken token now

/-! otp.utils.ts (first revision, separate `EmailVerification` table) and its
second revision (same functions rewritten over the `User` columns
`emailVerificationCode`/`emailVerificationExpires`). Both revisions share
`generateOTP`. -/

/-- Decimal rendering of a natural number, most significant digit first;
structural recursion on a fuel argument so that concrete values reduce. -/
def toDecimalAux : Nat → Nat → Str
  | 0, _ => []
  | fuel + 1, n =>
    if n = 0 then []
    else toDecimalAux fuel (n / 10) ++ [Nat.digitChar (n % 10)]

/-- JavaScript `Number.prototype.toString` on a natural number. -/
def natRender (n : Nat) : Str :=
  if n = 0 then ['0'] else toDecimalAux n n

/-- `String.prototype.padStart(targetLength, padChar)`. -/
def padStart (l : Str) (targetLength : Nat) (c : Char) : Str :=
  List.replicate (targetLength - l.length) c ++ l

def otpLength : Nat := 6

/-- The draw space of `crypto.randomInt(10 ** (length - 1), 10 ** length - 1)`:
Node returns an integer uniform on `[min, max)` — the upper bound is
exclusive. -/
def otpDraw (n : Nat) : Bool :=
  decide (10 ^ (otpLength - 1) ≤ n) && decide (n < 10 ^ otpLength - 1)

/-- `generateOTP()` applied to the drawn integer: render in decimal and pad
with leading zeros to 6 characters. -/
def generateOTP (draw : Nat) : Str :=
  padStart (natRender draw) otpLength '0'

def otpExpiryMinutesRev1 : Nat := 2

def getOTPExpiryRev1 (now : Nat) : Nat := now + otpExpiryMinutesRev1 * 60 * 1000

/-- A row of the `EmailVerification` table (first revision). -/
structure EmailVerification where
  id : Nat
  email : String
  code : Str
  expiresAt : Nat
deriving DecidableEq

/-- The `EmailVerification` table. -/
abbrev OtpStore := List EmailVerification

/-- First-revision `createOrUpdateOTP(email)`: `deleteMany` for the email,
then `create` a fresh row (with a fresh row id `newId`). -/
def createOrUpdateOTPRev1 (email : String) (draw newId now : Nat) (s : OtpStore) :
    (Str × Nat) × OtpStore :=
  let code := generateOTP draw
  let expiresAt := getOTPExpiryRev1 now
  let s1 := s.filter (fun r => !(r.email == email))
  ((code, expiresAt), s1 ++ [⟨newId, email, code, expiresAt⟩])

/-- First-revision `verifyOTP(email, code)`: `findFirst` on email AND code;
expired rows are deleted and rejected; a live match is deleted and accepted. -/
def verifyOTPRev1 (email : String) (code : Str) (now : Nat) (s : OtpStore) :
    Bool × OtpStore :=
  match s.find? (fun r => r.email == email && r.code == code) with
  | none => (false, s)
  | some r =>
    if now > r.expiresAt then
      (false, s.filter (fun x => !(x.id == r.id)))
    else
      (true, s.filter (fun x => !(x.id == r.id)))

/-- First-revision `deleteOTP(email)`. -/
def deleteOTPRev1 (email : String) (s : OtpStore) : OtpStore :=
  s.filter (fun r => !(r.email == email))

def otpExpiryMinutesRev2 : Nat := 10

def getOTPExpiryRev2 (now : Nat) : Nat := now + otpExpiryMinutesRev2 * 60 * 1000

/-- Second-revision `createOrUpdateOTP(email)`: requires the user to exist
and overwrites the two verification columns on the user row. -/
def createOrUpdateOTPRev2 (email : String) (draw now : Nat) (s : Db) :
    Except String ((Str × Nat) × Db) :=
  let code := generateOTP draw
  let expiresAt := getOTPExpiryRev2 now
  match findUserByEmail s email with
  | none => .error "User not found"
  | some user =>
    .ok ((code, expiresAt),
      updateUserById s user.id (fun u =>
        { u with emailVerificationCode := some code,
                 emailVerificationExpires := some expiresAt }))

/-- JavaScript `String.prototype.trim`: drop whitespace at both ends. -/
def jsTrim (l : Str) : Str :=
  ((l.dropWhile Char.isWhitespace).reverse.dropWhile Char.isWhitespace).reverse

/-- Second-revision `verifyOTP(email, code)`: looks up the user, requires a
truthy stored code and a stored expiry, compares the trimmed codes; on an
expired match it clears the two columns as a side effect and rejects; on a
live match it accepts WITHOUT clearing anything. -/
def verifyOTPRev2 (email : String) (code : Str) (now : Nat) (s : Db) : Bool × Db :=
  match findUserByEmail s email with
  | none => (false, s)
  | some user =>
    match user.emailVerificationCode, user.emailVerificationExpires with
    | some storedCode, some expiresAt =>
      if storedCode = [] then (false, s)
      else if !(jsTrim code == jsTrim storedCode) then (false, s)
      else if now > expiresAt then
        (false, updateUserById s user.id (fun u =>
          { u with emailVerificationCode := none,
                   emailVerificationExpires := none }))
      else (true, s)
    | _, _ => (false, s)

/-- Second-revision `deleteOTP(email)`. -/
def deleteOTPRev2 (email : String) (s : Db) : Db :=
  match findUserByEmail s email with
  | none => s
  | some user =>
    updateUserById s user.id (fun u =>
      { u with emailVerificationCode := none, emailVerificationExpires := none })

/-! Helper lemmas about decimal rendering, `generateOTP` and `jsTrim`. -/

theorem toDecimalAux_eq_digits (fuel : Nat) :
    ∀ n, n ≤ fuel → toDecimalAux fuel n = ((Nat.digits 10 n).reverse).map Nat.digitChar := by
  induction fuel with
  | zero =>
    intro n hn
    interval_cases n
    simp [toDecimalAux]
  | succ fuel ih =>
    intro n hn
    by_cases hzero : n = 0
    · subst hzero
      simp [toDecimalAux]
    · rw [toDecimalAux, if_neg hzero]
      have hdiv : n / 10 ≤ fuel := by
        have := Nat.div_lt_self (Nat.pos_of_ne_zero hzero) (by norm_num : 1 < 10)
        omega
      rw [ih (n / 10) hdiv,
        Nat.digits_def' (by norm_num : (1 : ℕ) < 10) (Nat.pos_of_ne_zero hzero)]
      simp

theorem natRender_eq {n : Nat} (hne : n ≠ 0) :
    natRender n = ((Nat.digits 10 n).reverse).map Nat.digitChar := by
  unfold natRender
  rw [if_neg hne]
  exact toDecimalAux_eq_digits n n le_rfl

theorem natRender_sixDigits {n : Nat} (h1 : 10 ^ 5 ≤ n) (h2 : n < 10 ^ 6) :
    (natRender n).length = 6 := by
  have hne : n ≠ 0 := by
    have : (0 : ℕ) < 10 ^ 5 := by norm_num
    omega
  rw [natRender_eq hne]
  simp [Nat.digits_len 10 n (by norm_num) hne,
    Nat.log_eq_of_pow_le_of_lt_pow h1 h2]

theorem otpDraw_bounds {n : Nat} (h : otpDraw n = true) :
    10 ^ 5 ≤ n ∧ n < 10 ^ 6 - 1 := by
  simpa [otpDraw, otpLength] using h

theorem generateOTP_eq_natRender {n : Nat} (h : otpDraw n = true) :
    generateOTP n = natRender n := by
  obtain ⟨h1, h2⟩ := otpDraw_bounds h
  unfold generateOTP padStart
  rw [natRender_sixDigits h1 (lt_of_lt_of_le h2 (by norm_num))]
  simp [otpLength]

theorem digitChar_not_whitespace : ∀ d < 10, (Nat.digitChar d).isWhitespace = false := by
  decide

theorem digitChar_inj_lt : ∀ a < 10, ∀ b < 10,
    Nat.digitChar a = Nat.digitChar b → a = b := by
  decide

theorem digitChar_ne_zero_char : ∀ d < 10, d ≠ 0 → Nat.digitChar d ≠ '0' := by
  decide

theorem natRender_mem {n : Nat} {c : Char} (hc : c ∈ natRender n) :
    ∃ d, d < 10 ∧ c = Nat.digitChar d := by
  by_cases hzero : n = 0
  · subst hzero
    simp [natRender] at hc
    exact ⟨0, by norm_num, by simpa using hc⟩
  · rw [natRender_eq hzero] at hc
    simp only [List.mem_map, List.mem_reverse] at hc
    obtain ⟨d, hd, rfl⟩ := hc
    exact ⟨d, Nat.digits_lt_base (by norm_num) hd, rfl⟩

theorem generateOTP_not_whitespace {n : Nat} {c : Char} (hc : c ∈ generateOTP n) :
    c.isWhitespace = false := by
  unfold generateOTP padStart at hc
  rcases List.mem_append.mp hc with h | h
  · have hc0 : c = '0' := List.eq_of_mem_replicate h
    subst hc0
    decide
  · obtain ⟨d, hd, rfl⟩ := natRender_mem h
    exact digitChar_not_whitespace d hd

theorem dropWhile_eq_self_of_false {p : Char → Bool} :
    ∀ l : Str, (∀ c ∈ l, p c = false) → l.dropWhile p = l := by
  intro l h
  cases l with
  | nil => rfl
  | cons a t =>
    rw [List.dropWhile_cons]
    simp [h a (List.mem_cons_self a t)]

theorem jsTrim_eq_self {l : Str} (h : ∀ c ∈ l, c.isWhitespace = false) :
    jsTrim l = l := by
  unfold jsTrim
  rw [dropWhile_eq_self_of_false l h,
    dropWhile_eq_self_of_false l.reverse (fun c hc => h c (List.mem_reverse.mp hc))]
  simp

theorem jsTrim_generateOTP (n : Nat) : jsTrim (generateOTP n) = generateOTP n :=
  jsTrim_eq_self (fun _ hc => generateOTP_not_whitespace hc)

theorem natRender_ne_nil (n : Nat) : natRender n ≠ [] := by
  unfold natRender
  by_cases h : n = 0
  · simp [h]
  · rw [if_neg h]
    cases n with
    | zero => exact absurd rfl h
    | succ k =>
      rw [toDecimalAux, if_neg h]
      simp

theorem generateOTP_ne_nil (n : Nat) : generateOTP n ≠ [] := by
  unfold generateOTP padStart
  intro h
  exact natRender_ne_nil n (List.append_eq_nil.mp h).2

theorem map_digitChar_injOn : ∀ l1 l2 : List Nat, (∀ d ∈ l1, d < 10) →
    (∀ d ∈ l2, d < 10) → l1.map Nat.digitChar = l2.map Nat.digitChar → l1 = l2 := by
  intro l1
  induction l1 with
  | nil =>
    intro l2 _ _ h
    cases l2 with
    | nil => rfl
    | cons b t2 => simp at h
  | cons a t ih =>
    intro l2 h1 h2 h
    cases l2 with
    | nil => simp at h
    | cons b t2 =>
      simp only [List.map_cons, List.cons.injEq] at h
      have hab : a = b :=
        digitChar_inj_lt a (h1 a (List.mem_cons_self a t)) b
          (h2 b (List.mem_cons_self b t2)) h.1
      have htt : t = t2 :=
        ih t2 (fun d hd => h1 d (List.mem_cons_of_mem a hd))
          (fun d hd => h2 d (List.mem_cons_of_mem b hd)) h.2
      rw [hab, htt]

theorem generateOTP_inj {m n : Nat} (hm : otpDraw m = true) (hn : otpDraw n = true)
    (h : generateOTP m = generateOTP n) : m = n := by
  have hmne : m ≠ 0 := by
    have := (otpDraw_bounds hm).1
    have : (0 : ℕ) < 10 ^ 5 := by norm_num
    omega
  have hnne : n ≠ 0 := by
    have := (otpDraw_bounds hn).1
    have : (0 : ℕ) < 10 ^ 5 := by norm_num
    omega
  rw [generateOTP_eq_natRender hm, generateOTP_eq_natRender hn,
    natRender_eq hmne, natRender_eq hnne] at h
  have hmap : (Nat.digits 10 m).map Nat.digitChar = (Nat.digits 10 n).map Nat.digitChar := by
    have hrev := congrArg List.reverse h
    simpa [List.map_reverse] using hrev
  have hdig : Nat.digits 10 m = Nat.digits 10 n :=
    map_digitChar_injOn _ _ (fun d hd => Nat.digits_lt_base (by norm_num) hd)
      (fun d hd => Nat.digits_lt_base (by norm_num) hd) hmap
  have := congrArg (Nat.ofDigits 10) hdig
  rwa [Nat.ofDigits_digits, Nat.ofDigits_digits] at this

theorem generateOTP_head_ne_zero {n : Nat} (hdraw : otpDraw n = true) {c : Char}
    (hc : (generateOTP n).head? = some c) : c ≠ '0' := by
  have hne : n ≠ 0 := by
    have := (otpDraw_bounds hdraw).1
    have : (0 : ℕ) < 10 ^ 5 := by norm_num
    omega
  rw [generateOTP_eq_natRender hdraw, natRender_eq hne] at hc
  rcases (List.eq_nil_or_concat (Nat.digits 10 n)).resolve_left
      (Nat.digits_ne_nil_iff_ne_zero.mpr hne) with ⟨ds, d, hds⟩
  rw [List.concat_eq_append] at hds
  have hdlast : (Nat.digits 10 n).getLast? = some d := by
    rw [hds]
    exact List.getLast?_concat ds
  have hdne : d ≠ 0 := by
    have hnil : Nat.digits 10 n ≠ [] := Nat.digits_ne_nil_iff_ne_zero.mpr hne
    have hgl := Nat.getLast_digit_ne_zero 10 hne
    rw [List.getLast?_eq_getLast _ hnil] at hdlast
    intro hd0
    exact hgl (by rw [Option.some_inj.mp hdlast, hd0])
  have hdlt : d < 10 :=
    Nat.digits_lt_base (by norm_num) (by rw [hds]; exact List.mem_append_right ds (by simp))
  rw [hds] at hc
  simp only [List.reverse_append, List.reverse_cons, List.reverse_nil, List.nil_append,
    List.map_cons, List.head?_cons] at hc
  rw [← Option.some_inj.mp hc]
  exact digitChar_ne_zero_char d hdlt hdne

theorem findUserByEmail_updateUserById (f : User → User)
    (hf : ∀ v, (f v).email = v.email) :
    ∀ (s : Db) (email : String) (u : User), findUserByEmail s email = some u →
      findUserByEmail (updateUserById s u.id f) email = some (f u) := by
  intro s
  induction s with
  | nil =>
    intro email u hfind
    simp [findUserByEmail] at hfind
  | cons a t ih =>
    intro email u hfind
    unfold findUserByEmail at hfind
    rw [List.find?_cons] at hfind
    unfold findUserByEmail updateUserById
    rw [List.map_cons, List.find?_cons]
    cases ha : (a.email == email) with
    | true =>
      rw [ha] at hfind
      simp only [cond_true, Option.some_inj] at hfind
      subst hfind
      have hid : (a.id == a.id) = true := by simp
      rw [if_pos hid]
      have hmail : ((f a).email == email) = true := by rw [hf a]; exact ha
      simp [hmail]
    | false =>
      rw [ha] at hfind
      simp only [cond_false] at hfind
      have hhead : ((if (a.id == u.id) = true then f a else a).email == email) = false := by
        by_cases hid : (a.id == u.id) = true
        · simp only [if_pos hid, hf a]
          exact ha
        · simp only [if_neg hid]
          exact ha
      have hres := ih email u hfind
      unfold findUserByEmail updateUserById at hres
      simp only [hhead, cond_false]
      exact hres

/-! Theorems for claim C1. -/

/-- Claim C1: Token Issuer round-trip — for every claim set `c`, verifying
(within the 24h lifetime) the token produced by `generateAccessToken c`
succeeds and returns claims whose `userId`, `email` and `role` equal those of
`c`; and for every claim set, a token signed with the refresh secret
(`generateRefreshToken`) makes `verifyAccessToken` fail with the 401
"Invalid or expired access token" error. -/
theorem accessToken_roundTrip_and_refresh_rejected
    (c : AuthPayload) (t now : Nat) (hnow : now < t + ACCESS_TOKEN_EXPIRY) :
    (∃ p : TokenPayload, verifyAccessToken (generateAccessToken c t) now = .ok p ∧
        p.userId = c.userId ∧ p.email = c.email ∧ p.role = c.role) ∧
    (∀ t2 now2 : Nat, verifyAccessToken (generateRefreshToken c t2) now2 =
        .error ⟨401, "Invalid or expired access token"⟩) := by
  constructor
  · refine ⟨⟨c.userId, c.email, c.role, t, t + ACCESS_TOKEN_EXPIRY⟩, ?_, rfl, rfl, rfl⟩
    unfold verifyAccessToken jwtVerify generateAccessToken jwtSign
    simp [hnow]
  · intro t2 now2
    have hsec : JWT_REFRESH_SECRET ≠ JWT_SECRET := by decide
    unfold verifyAccessToken jwtVerify generateRefreshToken jwtSign
    simp [hsec]

/-- Witness for C1 at a concrete claim set and clock. -/
theorem accessToken_roundTrip_witness :
    (0 : Nat) < 0 + ACCESS_TOKEN_EXPIRY ∧
    (∃ p : TokenPayload,
        verifyAccessToken (generateAccessToken ⟨"u1", "a@x.com", .CUSTOMER⟩ 0) 0 = .ok p ∧
        p.userId = "u1" ∧ p.email = "a@x.com" ∧ p.role = .CUSTOMER) ∧
    verifyAccessToken (generateRefreshToken ⟨"u1", "a@x.com", .CUSTOMER⟩ 0) 0 =
      .error ⟨401, "Invalid or expired access token"⟩ := by
  have h := accessToken_roundTrip_and_refresh_rejected
    ⟨"u1", "a@x.com", .CUSTOMER⟩ 0 0 (by decide)
  exact ⟨by decide, h.1, h.2 0 0⟩

/-! Theorems for claim C2. -/

/-- Claim C2: for every account whose status is not active and whose stored
password hash verifies against the supplied password, `login` fails with 403
"Account is not active" (Forbidden, not Unauthorized); the status check runs
only after the account is found, has a hash, and the password verifies — if
the password does not verify, the result is 401 regardless of status. -/
theorem login_suspended_is_forbidden (email password : String) (now : Nat) (s : Db)
    (u : User) (digest : BcryptHash)
    (hfind : findUserByEmail s email = some u)
    (hdigest : u.passwordHash = some digest) :
    (comparePassword password digest = true → u.status ≠ UserStatus.ACTIVE →
      login email password now s = (.error ⟨403, "Account is not active"⟩, s)) ∧
    (comparePassword password digest = false →
      login email password now s = (.error ⟨401, "Invalid email or password"⟩, s)) := by
  unfold login
  rw [hfind]
  constructor
  · intro hpw hst
    simp [hdigest, hpw, hst]
  · intro hpw
    simp [hdigest, hpw]

/-- Sample suspended account for the C2 witness. -/
def c2user : User :=
  { id := "u1", firstName := "A", lastName := "B", email := "a@x.com", phone := "123",
    passwordHash := some (hashPassword "Password1"), avatarUrl := none,
    role := .CUSTOMER, status := .SUSPENDED, emailVerified := true, phoneVerified := false,
    lastLoginAt := none, resetPasswordToken := none, resetPasswordExpires := none,
    emailVerificationCode := none, emailVerificationExpires := none }

/-- Witness for C2: correct password on a suspended account yields 403. -/
theorem login_suspended_witness :
    login "a@x.com" "Password1" 0 [c2user] =
      (.error ⟨403, "Account is not active"⟩, [c2user]) :=
  (login_suspended_is_forbidden "a@x.com" "Password1" 0 [c2user] c2user
    (hashPassword "Password1") (by decide) (by decide)).1 (by decide) (by decide)

/-! Theorems for claim C8. -/

/-- Claim C8: `register` fails with 409 Conflict exactly when some existing
account already uses the requested email or phone (single duplicate query
over both fields, and on Conflict the table is unchanged — no account is
created); otherwise the response is a 201 carrying the new account and a
token pair, and the created row has role defaulting to CUSTOMER, the bcrypt
hash of the supplied password, status ACTIVE and emailVerified false. -/
theorem register_conflict_iff_postconditions (req : RegisterRequest) (newId : String)
    (avatarResult : Option String) (now : Nat) (s : Db) :
    ((∃ u ∈ s, u.email = req.email ∨ u.phone = req.phone) →
      register req newId avatarResult now s =
        (.error ⟨409, "User with this email or phone already exists"⟩, s)) ∧
    ((∀ u ∈ s, u.email ≠ req.email ∧ u.phone ≠ req.phone) →
      ∃ res : AuthResult, (register req newId avatarResult now s).1 = .ok res ∧
        res.status = 201 ∧
        res.user.id = newId ∧
        res.user.role = req.role.getD UserRole.CUSTOMER ∧
        res.user.passwordHash = some (hashPassword req.password) ∧
        res.user.status = UserStatus.ACTIVE ∧
        res.user.emailVerified = false ∧
        res.accessToken = generateAccessToken ⟨newId, req.email, req.role.getD .CUSTOMER⟩ now ∧
        res.refreshToken = generateRefreshToken ⟨newId, req.email, req.role.getD .CUSTOMER⟩ now ∧
        ∃ u ∈ (register req newId avatarResult now s).2,
          u.id = newId ∧ u.role = req.role.getD UserRole.CUSTOMER ∧
          u.passwordHash = some (hashPassword req.password) ∧
          u.status = UserStatus.ACTIVE ∧ u.emailVerified = false) := by
  constructor
  · rintro ⟨u, hu, hdup⟩
    have hsome : (s.find? (fun v => v.email == req.email || v.phone == req.phone)).isSome := by
      rw [List.find?_isSome]
      refine ⟨u, hu, ?_⟩
      simpa using hdup
    obtain ⟨w, hw⟩ := Option.isSome_iff_exists.mp hsome
    unfold register
    rw [hw]
  · intro hnodup
    have hnone : s.find? (fun v => v.email == req.email || v.phone == req.phone) = none := by
      rw [List.find?_eq_none]
      intro v hv
      have := hnodup v hv
      simpa using this
    have hany : s.any (fun v => v.email == (freshUser req newId).email ||
        v.phone == (freshUser req newId).phone) = false := by
      rw [List.any_eq_false]
      intro v hv
      have := hnodup v hv
      simp [freshUser]
      exact this
    unfold register
    rw [hnone]
    unfold dbCreateUser
    rw [hany]
    cases avatarResult with
    | none =>
      refine ⟨_, rfl, rfl, rfl, rfl, rfl, rfl, rfl, rfl, rfl, freshUser req newId, ?_, rfl, rfl, rfl, rfl, rfl⟩
      simp
    | some url =>
      refine ⟨_, rfl, rfl, rfl, rfl, rfl, rfl, rfl, rfl, rfl,
        { freshUser req newId with avatarUrl := some url }, ?_, rfl, rfl, rfl, rfl, rfl⟩
      unfold updateUserById
      refine List.mem_map.mpr ⟨freshUser req newId, by simp, ?_⟩
      simp [freshUser]

/-! Theorems for claim C3. -/

/-- Whether the stored reset expiry of `u` has passed (or is absent) at `now`. -/
def resetExpiredBy (u : User) (now : Nat) : Bool :=
  match u.resetPasswordExpires with
  | some e => decide (e ≤ now)
  | none => true

/-- Claim C3: reset-token consume fails after expiry and is atomic. If every
account holding the hash of the presented token has an expiry that is not in
the future, `resetPassword` with that exact token fails with 400 "Invalid or
expired reset token" and leaves the whole table — in particular the account's
password hash, reset-token hash and expiry — unchanged (the lookup is one
query matching stored hash AND unexpired expiry, the conjunction
`resetMatch`); and when the lookup finds an account, the new password hash is
set and the reset-token hash and expiry are cleared in the same single
update. -/
theorem resetPassword_expiry_and_atomic (token : Str) (newPassword : String)
    (now : Nat) (s : Db) (htok : token ≠ []) (hpw : newPassword ≠ "") :
    ((∀ u ∈ s, u.resetPasswordToken = some (hashResetToken token) →
        resetExpiredBy u now = true) →
      resetPassword token newPassword now s =
        (.error ⟨400, "Invalid or expired reset token"⟩, s)) ∧
    (∀ u, s.find? (resetMatch (hashResetToken token) now) = some u →
      resetPassword token newPassword now s =
        (.ok (200, "Password has been reset successfully"),
         updateUserById s u.id (fun v =>
           { v with passwordHash := some (hashPassword newPassword),
                    resetPasswordToken := none,
                    resetPasswordExpires := none }))) := by
  constructor
  · intro hexp
    have hnone : s.find? (resetMatch (hashResetToken token) now) = none := by
      rw [List.find?_eq_none]
      intro v hv
      unfold resetMatch
      cases htokv : v.resetPasswordToken == some (hashResetToken token) with
      | false => simp
      | true =>
        have hveq : v.resetPasswordToken = some (hashResetToken token) := by
          simpa using htokv
        have hvexp := hexp v hv hveq
        unfold resetExpiredBy at hvexp
        cases he : v.resetPasswordExpires with
        | none => simp [he]
        | some e =>
          rw [he] at hvexp
          simp only [he, Bool.true_and]
          simp at hvexp
          simpa using Nat.not_lt.mpr hvexp
    simp only [resetPassword]
    rw [if_neg (by simp [htok, hpw])]
    simp [hnone]
  · intro u hu
    simp only [resetPassword]
    rw [if_neg (by simp [htok, hpw])]
    simp [hu]

/-- Sample account with an expired reset token for the C3 witness. -/
def c3userExpired : User :=
  { id := "u3", firstName := "C", lastName := "D", email := "c@x.com", phone := "333",
    passwordHash := some (hashPassword "OldPass1"), avatarUrl := none,
    role := .CUSTOMER, status := .ACTIVE, emailVerified := true, phoneVerified := false,
    lastLoginAt := none, resetPasswordToken := some (hashResetToken "tok".toList),
    resetPasswordExpires := some 100,
    emailVerificationCode := none, emailVerificationExpires := none }

/-- Sample account with a live reset token for the C3 witness. -/
def c3userLive : User :=
  { id := "u3", firstName := "C", lastName := "D", email := "c@x.com", phone := "333",
    passwordHash := some (hashPassword "OldPass1"), avatarUrl := none,
    role := .CUSTOMER, status := .ACTIVE, emailVerified := true, phoneVerified := false,
    lastLoginAt := none, resetPasswordToken := some (hashResetToken "tok".toList),
    resetPasswordExpires := some 300,
    emailVerificationCode := none, emailVerificationExpires := none }

/-- Witness for C3: at clock 200, the exact correct raw token fails against
an expiry of 100 and leaves the table unchanged, and succeeds against an
expiry of 300 with the single three-field update. -/
theorem resetPassword_witness :
    resetPassword "tok".toList "NewPass1" 200 [c3userExpired] =
      (.error ⟨400, "Invalid or expired reset token"⟩, [c3userExpired]) ∧
    resetPassword "tok".toList "NewPass1" 200 [c3userLive] =
      (.ok (200, "Password has been reset successfully"),
       updateUserById [c3userLive] c3userLive.id (fun v =>
         { v with passwordHash := some (hashPassword "NewPass1"),
                  resetPasswordToken := none,
                  resetPasswordExpires := none })) :=
  ⟨(resetPassword_expiry_and_atomic "tok".toList "NewPass1" 200 [c3userExpired]
      (by decide) (by decide)).1 (by decide),
   (resetPassword_expiry_and_atomic "tok".toList "NewPass1" 200 [c3userLive]
      (by decide) (by decide)).2 c3userLive (by decide)⟩

/-! Theorems for claim C4. -/

/-- Claim C4: anti-enumeration of `forgotPassword` — a run with a non-empty
email matching an existing account (even with mail delivery failing,
`mailOk = false`) and a run with a non-empty email matching no account both
return the identical 200 response with the generic message
"If an account exists, a reset link will be sent". -/
theorem forgotPassword_uniform_response (s1 s2 : Db) (e1 e2 : String)
    (tok1 tok2 : Str) (now1 now2 : Nat) (mail2 : Bool)
    (h1 : e1 ≠ "") (h2 : e2 ≠ "")
    (hex : (findUserByEmail s1 e1).isSome = true)
    (hnone : findUserByEmail s2 e2 = none) :
    (forgotPassword e1 tok1 now1 false s1).1 = .ok (200, genericResetMessage) ∧
    (forgotPassword e2 tok2 now2 mail2 s2).1 = .ok (200, genericResetMessage) := by
  constructor
  · obtain ⟨u, hu⟩ := Option.isSome_iff_exists.mp hex
    simp [forgotPassword, h1, hu]
  · simp [forgotPassword, h2, hnone]

/-- Witness for C4 at concrete tables: one holding the email, one empty. -/
theorem forgotPassword_uniform_witness :
    (forgotPassword "a@x.com" "t1".toList 0 false [c2user]).1 =
      .ok (200, genericResetMessage) ∧
    (forgotPassword "b@x.com" "t2".toList 0 true []).1 =
      .ok (200, genericResetMessage) :=
  forgotPassword_uniform_response [c2user] [] "a@x.com" "b@x.com"
    "t1".toList "t2".toList 0 0 true (by decide) (by decide) (by decide) (by decide)

/-! Theorems for claim C5. -/

/-- Distinct draws give distinct codes (contrapositive of injectivity). -/
theorem generateOTP_ne_of_draw_ne {m n : Nat} (hm : otpDraw m = true)
    (hn : otpDraw n = true) (h : m ≠ n) : generateOTP m ≠ generateOTP n :=
  fun he => h (generateOTP_inj hm hn he)

/-- The user update performed by the second-revision `createOrUpdateOTP`. -/
def otpWrite (s : Db) (u : User) (draw now : Nat) : Db :=
  updateUserById s u.id (fun v =>
    { v with emailVerificationCode := some (generateOTP draw),
             emailVerificationExpires := some (getOTPExpiryRev2 now) })

/-- Claim C5: one-live-code invariant, in both revisions. First revision:
after `createOrUpdateOTP` the only row for the email is the new one, and
`verifyOTP` with any code other than the new one fails at any clock. Second
revision: `createOrUpdateOTP` overwrites the user's stored code, and
`verifyOTP` with any previously issued code (the rendering of a different
draw) fails at any clock. -/
theorem otp_one_live_code (email : String) (draw newId now : Nat)
    (s1 : OtpStore) (s2 : Db) :
    ((createOrUpdateOTPRev1 email draw newId now s1).2.filter
        (fun r => r.email == email) =
      [⟨newId, email, generateOTP draw, getOTPExpiryRev1 now⟩]) ∧
    (∀ old : Str, old ≠ generateOTP draw → ∀ now2 : Nat,
      (verifyOTPRev1 email old now2
        (createOrUpdateOTPRev1 email draw newId now s1).2).1 = false) ∧
    (∀ u : User, findUserByEmail s2 email = some u →
      createOrUpdateOTPRev2 email draw now s2 =
        .ok ((generateOTP draw, getOTPExpiryRev2 now), otpWrite s2 u draw now) ∧
      ∀ d1 : Nat, otpDraw d1 = true → otpDraw draw = true → d1 ≠ draw →
        ∀ now2 : Nat,
          (verifyOTPRev2 email (generateOTP d1) now2 (otpWrite s2 u draw now)).1
            = false) := by
  refine ⟨?_, ?_, ?_⟩
  · show ((s1.filter (fun r => !(r.email == email))) ++
        ([⟨newId, email, generateOTP draw, getOTPExpiryRev1 now⟩] : OtpStore)).filter
        (fun r => r.email == email) =
      [⟨newId, email, generateOTP draw, getOTPExpiryRev1 now⟩]
    simp only [List.filter_append]
    have hleft : (s1.filter (fun r => !(r.email == email))).filter
        (fun r => r.email == email) = [] := by
      rw [List.filter_eq_nil_iff]
      intro r hr
      have hmail := (List.mem_filter.mp hr).2
      simp only [Bool.not_eq_true'] at hmail
      simp [hmail]
    rw [hleft]
    simp
  · intro old hold now2
    show (verifyOTPRev1 email old now2
      ((s1.filter (fun r => !(r.email == email))) ++
        ([⟨newId, email, generateOTP draw, getOTPExpiryRev1 now⟩] : OtpStore))).1 = false
    have hnone : List.find? (fun r => r.email == email && r.code == old)
        ((s1.filter (fun r => !(r.email == email))) ++
          ([⟨newId, email, generateOTP draw, getOTPExpiryRev1 now⟩] : OtpStore)) = none := by
      rw [List.find?_eq_none]
      intro r hr
      rcases List.mem_append.mp hr with h | h
      · have hmail := (List.mem_filter.mp h).2
        simp only [Bool.not_eq_true'] at hmail
        simp [hmail]
      · have hr2 : r = ⟨newId, email, generateOTP draw, getOTPExpiryRev1 now⟩ := by
          simpa using h
        subst hr2
        simp [Ne.symm hold]
    unfold verifyOTPRev1
    rw [hnone]
  · intro u hu
    constructor
    · unfold createOrUpdateOTPRev2 otpWrite
      rw [hu]
    · intro d1 hd1 hdraw hne now2
      have hfound : findUserByEmail (otpWrite s2 u draw now) email =
          some { u with emailVerificationCode := some (generateOTP draw),
                        emailVerificationExpires := some (getOTPExpiryRev2 now) } := by
        unfold otpWrite
        exact findUserByEmail_updateUserById
          (fun v => { v with emailVerificationCode := some (generateOTP draw),
                             emailVerificationExpires := some (getOTPExpiryRev2 now) })
          (fun v => rfl) s2 email u hu
      unfold verifyOTPRev2
      rw [hfound]
      have hcodes : (jsTrim (generateOTP d1) == jsTrim (generateOTP draw)) = false := by
        rw [jsTrim_generateOTP, jsTrim_generateOTP, beq_eq_false_iff_ne]
        exact generateOTP_ne_of_draw_ne hd1 hdraw hne
      simp [generateOTP_ne_nil draw, hcodes]

/-- Sample user holding a stale stored code for the C5 witness. -/
def c5user : User :=
  { id := "u5", firstName := "E", lastName := "F", email := "e@x.com", phone := "555",
    passwordHash := some (hashPassword "Password1"), avatarUrl := none,
    role := .CUSTOMER, status := .ACTIVE, emailVerified := false, phoneVerified := false,
    lastLoginAt := none, resetPasswordToken := none, resetPasswordExpires := none,
    emailVerificationCode := some ['1', '1', '1', '1', '1', '1'],
    emailVerificationExpires := some 999 }

/-- Witness for C5 at a concrete email, draws 123456 (new) and 654321 (old),
a one-row first-revision store and a one-user table. -/
theorem otp_one_live_code_witness :
    (verifyOTPRev1 "e@x.com" (generateOTP 654321) 0
      (createOrUpdateOTPRev1 "e@x.com" 123456 7 0
        [⟨3, "e@x.com", generateOTP 654321, 50⟩]).2).1 = false ∧
    (verifyOTPRev2 "e@x.com" (generateOTP 654321) 0
      (otpWrite [c5user] c5user 123456 0)).1 = false :=
  ⟨(otp_one_live_code "e@x.com" 123456 7 0 [⟨3, "e@x.com", generateOTP 654321, 50⟩]
      [c5user]).2.1 (generateOTP 654321)
      (generateOTP_ne_of_draw_ne (by decide) (by decide) (by decide)) 0,
   ((otp_one_live_code "e@x.com" 123456 7 0 [⟨3, "e@x.com", generateOTP 654321, 50⟩]
      [c5user]).2.2 c5user (by decide)).2 654321 (by decide) (by decide) (by decide) 0⟩

/-! Theorems for claim C6. -/

/-- Counterexample to C6 as stated: in the first revision (separate
`EmailVerification` table), a successful `verifyOTP` does NOT leave the
stored record unchanged — at a concrete live record it returns `true` and
deletes the record (the resulting store is empty). -/
theorem verifyOTP_rev1_consumes_on_success :
    (verifyOTPRev1 "a@x.com" ['1', '2', '3', '4', '5', '6'] 500
        [⟨1, "a@x.com", ['1', '2', '3', '4', '5', '6'], 1000⟩]).1 = true ∧
    (verifyOTPRev1 "a@x.com" ['1', '2', '3', '4', '5', '6'] 500
        [⟨1, "a@x.com", ['1', '2', '3', '4', '5', '6'], 1000⟩]).2 = [] := by
  decide

/-- Claim C6 amended: in the second (user-record) revision a successful
`verifyOTP` leaves the table unchanged (no consumption — callers must call
`deleteOTP` explicitly), while in the first (separate-record) revision a
successful `verifyOTP` deletes the matched record; on the expired path both
revisions eagerly clear the stored record as a side effect while returning
false. -/
theorem verifyOTP_frame_and_expiry (email : String) (code : Str) (now : Nat) :
    (∀ (s : Db) (u : User) (storedCode : Str) (expiresAt : Nat),
      findUserByEmail s email = some u →
      u.emailVerificationCode = some storedCode →
      u.emailVerificationExpires = some expiresAt →
      storedCode ≠ [] → jsTrim code = jsTrim storedCode → ¬ now > expiresAt →
      verifyOTPRev2 email code now s = (true, s)) ∧
    (∀ (s : OtpStore) (r : EmailVerification),
      s.find? (fun x => x.email == email && x.code == code) = some r →
      ¬ now > r.expiresAt →
      verifyOTPRev1 email code now s =
        (true, s.filter (fun x => !(x.id == r.id)))) ∧
    (∀ (s : OtpStore) (r : EmailVerification),
      s.find? (fun x => x.email == email && x.code == code) = some r →
      now > r.expiresAt →
      verifyOTPRev1 email code now s =
        (false, s.filter (fun x => !(x.id == r.id)))) ∧
    (∀ (s : Db) (u : User) (storedCode : Str) (expiresAt : Nat),
      findUserByEmail s email = some u →
      u.emailVerificationCode = some storedCode →
      u.emailVerificationExpires = some expiresAt →
      storedCode ≠ [] → jsTrim code = jsTrim storedCode → now > expiresAt →
      verifyOTPRev2 email code now s =
        (false, updateUserById s u.id (fun v =>
          { v with emailVerificationCode := none,
                   emailVerificationExpires := none }))) := by
  refine ⟨?_, ?_, ?_, ?_⟩
  · intro s u storedCode expiresAt hfind hcode hexp hne htrim hlive
    unfold verifyOTPRev2
    rw [hfind]
    simp [hcode, hexp, hne, htrim, hlive]
  · intro s r hfind hlive
    unfold verifyOTPRev1
    rw [hfind]
    simp [hlive]
  · intro s r hfind hexp
    unfold verifyOTPRev1
    rw [hfind]
    simp [hexp]
  · intro s u storedCode expiresAt hfind hcode hexp hne htrim hdead
    unfold verifyOTPRev2
    rw [hfind]
    simp [hcode, hexp, hne, htrim, hdead]

/-- Sample user holding a live stored code for the C6 witness. -/
def c6user : User :=
  { id := "u6", firstName := "G", lastName := "H", email := "g@x.com", phone := "666",
    passwordHash := none, avatarUrl := none,
    role := .CUSTOMER, status := .ACTIVE, emailVerified := false, phoneVerified := false,
    lastLoginAt := none, resetPasswordToken := none, resetPasswordExpires := none,
    emailVerificationCode := some ['1', '2', '3', '4', '5', '6'],
    emailVerificationExpires := some 1000 }

/-- Witness for the amended C6: a live second-revision verification leaves
the table unchanged, and a live first-revision verification deletes the row. -/
theorem verifyOTP_frame_witness :
    verifyOTPRev2 "g@x.com" ['1', '2', '3', '4', '5', '6'] 500 [c6user] =
      (true, [c6user]) ∧
    verifyOTPRev1 "g@x.com" ['1', '2', '3', '4', '5', '6'] 500
        [⟨4, "g@x.com", ['1', '2', '3', '4', '5', '6'], 1000⟩] =
      (true, ([⟨4, "g@x.com", ['1', '2', '3', '4', '5', '6'], 1000⟩] :
        OtpStore).filter (fun x => !(x.id == 4))) :=
  ⟨(verifyOTP_frame_and_expiry "g@x.com" ['1', '2', '3', '4', '5', '6'] 500).1
      [c6user] c6user ['1', '2', '3', '4', '5', '6'] 1000
      (by decide) (by decide) (by decide) (by decide) (by decide) (by decide),
   (verifyOTP_frame_and_expiry "g@x.com" ['1', '2', '3', '4', '5', '6'] 500).2.1
      [⟨4, "g@x.com", ['1', '2', '3', '4', '5', '6'], 1000⟩]
      ⟨4, "g@x.com", ['1', '2', '3', '4', '5', '6'], 1000⟩
      (by decide) (by decide)⟩

/-! Theorems for claim C7. -/

/-- Counterexample to C7 as stated: not every value in
`000000`..`999999` is a possible output of `generateOTP` — the code
`999999` is never produced, because `crypto.randomInt(10^5, 10^6 - 1)`
excludes its upper bound. (Leading-zero codes such as `012345` are likewise
impossible, since every draw is at least `10^5`.) -/
theorem generateOTP_cannot_produce_999999 :
    ¬ ∃ draw : Nat, otpDraw draw = true ∧
      generateOTP draw = ['9', '9', '9', '9', '9', '9'] := by
  rintro ⟨draw, hdraw, heq⟩
  obtain ⟨h1, h2⟩ := otpDraw_bounds hdraw
  have hne : draw ≠ 0 := by
    have hpos : (0 : ℕ) < 10 ^ 5 := by norm_num
    omega
  rw [generateOTP_eq_natRender hdraw, natRender_eq hne] at heq
  have hmap : (Nat.digits 10 draw).map Nat.digitChar = [9, 9, 9, 9, 9, 9].map Nat.digitChar := by
    have hrev := congrArg List.reverse heq
    rw [← List.map_reverse, List.reverse_reverse] at hrev
    rw [hrev]
    decide
  have hdig : Nat.digits 10 draw = [9, 9, 9, 9, 9, 9] :=
    map_digitChar_injOn _ _ (fun d hd => Nat.digits_lt_base (by norm_num) hd)
      (by decide) hmap
  have hval : draw = Nat.ofDigits 10 [9, 9, 9, 9, 9, 9] := by
    rw [← hdig, Nat.ofDigits_digits]
  have : draw = 999999 := by
    rw [hval]
    decide
  have hbound : (10 : ℕ) ^ 6 - 1 = 999999 := by norm_num
  omega

/-- Claim C7 amended: `generateOTP` renders a draw uniform on
`[100000, 999998]` (the bounds of `crypto.randomInt(10^5, 10^6 - 1)`, whose
upper bound is exclusive): the output is always 6 characters, never begins
with `0` (the `padStart` is a no-op), and the draw-to-code map is injective,
so the produced codes inherit the uniform distribution of the draw. -/
theorem generateOTP_distribution (draw : Nat) (h : otpDraw draw = true) :
    10 ^ 5 ≤ draw ∧ draw < 10 ^ 6 - 1 ∧
    (generateOTP draw).length = 6 ∧
    (∀ c : Char, (generateOTP draw).head? = some c → c ≠ '0') ∧
    (∀ d2 : Nat, otpDraw d2 = true → generateOTP d2 = generateOTP draw →
      d2 = draw) := by
  obtain ⟨h1, h2⟩ := otpDraw_bounds h
  refine ⟨h1, h2, ?_, ?_, ?_⟩
  · rw [generateOTP_eq_natRender h]
    exact natRender_sixDigits h1 (lt_of_lt_of_le h2 (by norm_num))
  · intro c hc
    exact generateOTP_head_ne_zero h hc
  · intro d2 hd2 heq
    exact generateOTP_inj hd2 h heq

/-- Witness for the amended C7 at the concrete draw 123456. -/
theorem generateOTP_distribution_witness :
    (generateOTP 123456).length = 6 ∧
    (∀ c : Char, (generateOTP 123456).head? = some c → c ≠ '0') :=
  ⟨(generateOTP_distribution 123456 (by decide)).2.2.1,
   (generateOTP_distribution 123456 (by decide)).2.2.2.1⟩

/-- Sample request for the C8 witness. -/
def c8req : RegisterRequest :=
  { firstName := "A", lastName := "B", email := "a@x.com", phone := "123",
    password := "Password1", role := none }

/-- Witness for C8: registering against a table already holding the email
fails with 409 and leaves the table unchanged. -/
theorem register_conflict_witness :
    register c8req "u2" none 0 [c2user] =
      (.error ⟨409, "User with this email or phone already exists"⟩, [c2user]) :=
  (register_conflict_iff_postconditions c8req "u2" none 0 [c2user]).1
    ⟨c2user, by decide, by decide⟩

/-! Theorems for claim C9. -/

/-- The global uniqueness invariant: no two rows of the `User` table share
an email, and no two share a phone. -/
def uniqueIdentifiers (s : Db) : Prop :=
  s.Pairwise (fun u v => u.email ≠ v.email ∧ u.phone ≠ v.phone)

theorem uniqueIdentifiers_update (s : Db) (id : String) (f : User → User)
    (hfe : ∀ v, (f v).email = v.email) (hfp : ∀ v, (f v).phone = v.phone)
    (h : uniqueIdentifiers s) : uniqueIdentifiers (updateUserById s id f) := by
  unfold uniqueIdentifiers updateUserById
  refine List.Pairwise.map _ ?_ h
  intro a b hab
  constructor
  · by_cases ha : (a.id == id) = true <;> by_cases hb : (b.id == id) = true <;>
      simp [ha, hb, hfe, hab.1]
  · by_cases ha : (a.id == id) = true <;> by_cases hb : (b.id == id) = true <;>
      simp [ha, hb, hfp, hab.2]

theorem uniqueIdentifiers_append (s : Db) (u : User) (h : uniqueIdentifiers s)
    (hnew : ∀ v ∈ s, v.email ≠ u.email ∧ v.phone ≠ u.phone) :
    uniqueIdentifiers (s ++ [u]) := by
  unfold uniqueIdentifiers
  rw [List.pairwise_append]
  refine ⟨h, List.pairwise_singleton _ _, ?_⟩
  intro a ha b hb
  have hb2 : b = u := by simpa using hb
  subst hb2
  exact hnew a ha

theorem uniqueIdentifiers_dbCreateUser {s : Db} {u : User} (h : uniqueIdentifiers s)
    {s2 : Db} (hok : dbCreateUser s u = .ok s2) : uniqueIdentifiers s2 := by
  unfold dbCreateUser at hok
  split at hok
  · cases hok
  · next hany =>
    have hs2 : s ++ [u] = s2 := by
      injection hok
    subst hs2
    apply uniqueIdentifiers_append s u h
    intro v hv
    have hfalse : s.any (fun v => v.email == u.email || v.phone == u.phone) = false := by
      simpa using hany
    have hv2 := List.any_eq_false.mp hfalse v hv
    constructor
    · intro he
      exact hv2 (by simp [he])
    · intro hp
      exact hv2 (by simp [hp])

/-- Claim C9 amended: every account-creation path preserves the global
uniqueness invariant — `register` through its application-level duplicate
check, `googleCallback` through the unique indexes of the schema. However
`googleCallback` does NOT auto-provision whenever no existing account
matches the provider email: the provisioned row carries an empty phone, so
with valid code/state the creation succeeds exactly when no existing row
already has an empty phone (otherwise the phone-unique index rejects it, a
constraint error is surfaced, and no account is created). -/
theorem accountCreation_preserves_uniqueIdentifiers
    (req : RegisterRequest) (newId : String) (avatarResult : Option String)
    (code state cookieState : Option String) (g : GoogleUser) (now : Nat) (s : Db)
    (h : uniqueIdentifiers s) :
    uniqueIdentifiers (register req newId avatarResult now s).2 ∧
    uniqueIdentifiers (googleCallback code state cookieState g newId now s).2 ∧
    (∀ c st : String, c ≠ "" → st ≠ "" →
      findUserByEmail s g.email = none →
      ((∃ v ∈ s, v.phone = "") →
        googleCallback (some c) (some st) (some st) g newId now s =
          (.error ⟨500, "Unique constraint failed"⟩, s)) ∧
      ((∀ v ∈ s, v.phone ≠ "") →
        googleCallback (some c) (some st) (some st) g newId now s =
          (.ok ⟨302, googleProvisionedUser g newId,
            (generateTokenPair ⟨newId, g.email, UserRole.CUSTOMER⟩ now).1,
            (generateTokenPair ⟨newId, g.email, UserRole.CUSTOMER⟩ now).2⟩,
           s ++ [googleProvisionedUser g newId]))) := by
  refine ⟨?_, ?_, ?_⟩
  · unfold register
    split
    · exact h
    · split
      · exact h
      · next s1 hok =>
        split
        · exact uniqueIdentifiers_update s1 newId _ (fun v => rfl) (fun v => rfl)
            (uniqueIdentifiers_dbCreateUser h hok)
        · exact uniqueIdentifiers_dbCreateUser h hok
  · unfold googleCallback
    split
    · split
      · exact h
      · split
        · exact h
        · split
          · split
            · exact h
            · next s1 hok => exact uniqueIdentifiers_dbCreateUser h hok
          · split
            · exact h
            · exact h
    · exact h
  · intro c st hc hst hnomail
    have hvalid1 : ¬ (c = "" ∨ st = "") := by
      rintro (h1 | h2)
      · exact hc h1
      · exact hst h2
    have hvalid2 : ¬ ((some st : Option String) ≠ some st) := by simp
    constructor
    · rintro ⟨v, hv, hvphone⟩
      simp only [googleCallback]
      rw [if_neg hvalid1, if_neg hvalid2, hnomail]
      have hany : s.any (fun w => w.email == (googleProvisionedUser g newId).email ||
          w.phone == (googleProvisionedUser g newId).phone) = true := by
        rw [List.any_eq_true]
        refine ⟨v, hv, ?_⟩
        simp [googleProvisionedUser, hvphone]
      unfold dbCreateUser
      rw [if_pos hany]
    · intro hnophone
      simp only [googleCallback]
      rw [if_neg hvalid1, if_neg hvalid2, hnomail]
      have hany : s.any (fun w => w.email == (googleProvisionedUser g newId).email ||
          w.phone == (googleProvisionedUser g newId).phone) = false := by
        rw [List.any_eq_false]
        intro v hv
        have hvempty := hnophone v hv
        have hvmail := List.find?_eq_none.mp hnomail v hv
        simp only [googleProvisionedUser]
        simp only [findUserByEmail] at hvmail
        simp at hvmail ⊢
        exact ⟨hvmail, hvempty⟩
      unfold dbCreateUser
      rw [if_neg (by simp [hany])]
      rfl

/-- First auto-provisioned Google profile, for the C9 counterexample. -/
def c9g1 : GoogleUser :=
  { sub := "sub1", email := "one@gmail.com", name := "One",
    picture := none, given_name := some "One", family_name := some "A" }

/-- Second Google profile with a fresh email, for the C9 counterexample. -/
def c9g2 : GoogleUser :=
  { sub := "sub2", email := "two@gmail.com", name := "Two",
    picture := none, given_name := some "Two", family_name := some "B" }

/-- Counterexample to C9 as stated: with one already-auto-provisioned
account (empty phone) and the invariant holding, a `googleCallback` for a
fresh provider email — valid code and matching state — does NOT
auto-provision a new account: the empty-phone row collides with the phone
unique index, the call fails, and the table is unchanged. -/
theorem googleCallback_second_provision_fails :
    uniqueIdentifiers [googleProvisionedUser c9g1 "id1"] ∧
    findUserByEmail [googleProvisionedUser c9g1 "id1"] c9g2.email = none ∧
    googleCallback (some "c") (some "st") (some "st") c9g2 "id2" 0
        [googleProvisionedUser c9g1 "id1"] =
      (.error ⟨500, "Unique constraint failed"⟩,
       [googleProvisionedUser c9g1 "id1"]) := by
  refine ⟨?_, by decide, rfl⟩
  unfold uniqueIdentifiers
  exact List.pairwise_singleton _ _

/-- Witness for the amended C9: the preservation statement instantiated at a
concrete register request over a one-row table satisfying the invariant. -/
theorem accountCreation_unique_witness :
    uniqueIdentifiers (register c8req "id9" none 0
      [googleProvisionedUser c9g1 "id1"]).2 ∧
    uniqueIdentifiers (googleCallback (some "c") (some "st") (some "st") c9g2 "id9" 0
      [googleProvisionedUser c9g1 "id1"]).2 :=
  ⟨(accountCreation_preserves_uniqueIdentifiers c8req "id9" none (some "c") (some "st")
      (some "st") c9g2 0 [googleProvisionedUser c9g1 "id1"]
      (by unfold uniqueIdentifiers; exact List.pairwise_singleton _ _)).1,
   (accountCreation_preserves_uniqueIdentifiers c8req "id9" none (some "c") (some "st")
      (some "st") c9g2 0 [googleProvisionedUser c9g1 "id1"]
      (by unfold uniqueIdentifiers; exact List.pairwise_singleton _ _)).2.1⟩

/-! Theorems for claim C10. -/

/-- Claim C10: `extractTokenFromHeader` returns null for a missing header
and for every header not beginning with the exact text `Bearer` plus a
space (bare scheme, other schemes, different casing), and otherwise returns
exactly the characters after the first 7; consequently `authenticate`
rejects every request without such a header with 401 "Access token is
required" before any token verification is attempted (for every decoding
and clock). -/
theorem bearer_header_parsing (h : Str) (decodeJwt : Str → Option Jwt) (now : Nat) :
    extractTokenFromHeader none = none ∧
    authenticate none decodeJwt now = .error ⟨401, "Access token is required"⟩ ∧
    ("Bearer ".toList.isPrefixOf h = false →
      extractTokenFromHeader (some h) = none ∧
      authenticate (some h) decodeJwt now =
        .error ⟨401, "Access token is required"⟩) ∧
    ("Bearer ".toList.isPrefixOf h = true →
      extractTokenFromHeader (some h) = some (h.drop 7)) := by
  refine ⟨rfl, rfl, ?_, ?_⟩
  · intro hpre
    have hext : extractTokenFromHeader (some h) = none := by
      show (if h = [] ∨ "Bearer ".toList.isPrefixOf h = false then none
        else some (h.drop 7)) = none
      rw [if_pos (Or.inr hpre)]
    refine ⟨hext, ?_⟩
    unfold authenticate
    rw [hext]
  · intro hpre
    show (if h = [] ∨ "Bearer ".toList.isPrefixOf h = false then none
      else some (h.drop 7)) = some (h.drop 7)
    rw [if_neg ?_]
    rintro (hnil | hfalse)
    · subst hnil
      exact absurd hpre (by decide)
    · rw [hpre] at hfalse
      cases hfalse

/-- Witness for C10: a non-Bearer header is rejected with the
"Access token is required" error, and a Bearer header is stripped of its
first 7 characters. -/
theorem bearer_header_witness :
    authenticate (some "Token abc".toList) (fun _ => none) 0 =
      .error ⟨401, "Access token is required"⟩ ∧
    extractTokenFromHeader (some "Bearer abc".toList) = some "abc".toList := by
  refine ⟨((bearer_header_parsing "Token abc".toList (fun _ => none) 0).2.2.1
    (by decide)).2, ?_⟩
  have hdrop := (bearer_header_parsing "Bearer abc".toList (fun _ => none) 0).2.2.2
    (by decide)
  rw [hdrop]
  decide

end ECuruza
